import Mathlib

/-!
Shallow embedding of the react-portals repository: a reusable overlay
(`Modal`, src/unnamed/part_000) that mounts its content into the anchor
node found by `document.getElementById "root"`, and the application shell
(`App`, src/App.tsx) that owns the boolean visibility flag.

The embedding models the virtual DOM tree the component returns, the
document in which the anchor node is looked up, and the browser's click
dispatch with bubbling and `stopPropagation`.
-/

namespace ReactPortals

/-- A click-handler action attached to an element: either invoke a
zero-argument callback (the callbacks are drawn from an abstract type `κ`),
or stop the event from propagating to ancestor elements. -/
inductive ClickAction (κ : Type) where
  | invoke (k : κ)
  | stopProp
  deriving DecidableEq, Repr

/-- A virtual DOM node: an element with a tag, an inline style list, a list
of click-handler actions and child nodes, or an opaque content payload
(the `children` prop forwarded by the component). -/
inductive VNode (κ α : Type) where
  | el (tag : String) (style : List (String × String))
      (onClick : List (ClickAction κ)) (childNodes : List (VNode κ α))
  | content (payload : α)

/-- The document, reduced to the list of element ids it contains; this is
all the source consults (`document.getElementById`). -/
structure Document where
  elemIds : List String
  deriving DecidableEq

/-- Lookup of an element by id, as in `document.getElementById`: the first
matching id, or `none` when the document has no such element. -/
def Document.getElementById (d : Document) (i : String) : Option String :=
  d.elemIds.find? (fun e => e == i)

/-- The value produced by `createPortal`: a tree mounted under a target
node elsewhere in the document, rather than at the caller's position. -/
structure Portal (κ α : Type) where
  target : String
  tree : VNode κ α

/-- Result of one render of the overlay component: the document queries it
performed, in order, and its output (`none` models returning `null`). -/
structure RenderResult (κ α : Type) where
  queries : List String
  output : Option (Portal κ α)

/-- The inner content panel of the modal (the second `div` in the source):
white background, rounded, padded, with a `stopPropagation` click handler,
holding the forwarded `children` payload. -/
def modalPanel {κ α : Type} (children : α) : VNode κ α :=
  VNode.el "div"
    [("background", "white"), ("borderRadius", "12px"), ("padding", "20px"),
     ("minWidth", "300px"), ("boxShadow", "0 4px 10px rgba(0,0,0,0.2)")]
    [ClickAction.stopProp]
    [VNode.content children]

/-- The backdrop tree the modal renders (the outer `div` in the source):
fixed full-viewport semi-transparent layer, top stacking order, flexbox
centering, with an `onClick` that invokes `onClose`, containing the panel. -/
def modalTree {κ α : Type} (onClose : κ) (children : α) : VNode κ α :=
  VNode.el "div"
    [("position", "fixed"), ("top", "0"), ("left", "0"),
     ("width", "100vw"), ("height", "100vh"),
     ("backgroundColor", "rgba(0,0,0,0.4)"),
     ("display", "flex"), ("alignItems", "center"),
     ("justifyContent", "center"), ("zIndex", "1000")]
    [ClickAction.invoke onClose]
    [modalPanel children]

/-- The `Modal` component of src/unnamed/part_000, line for line: if
`isOpen` is false it returns `null` at once (before any document access);
otherwise it looks up the anchor node with id `root` and returns `null`
when it is absent; otherwise it returns a portal mounting the backdrop
tree under the anchor node. -/
def Modal {κ α : Type} (doc : Document) (isOpen : Bool) (onClose : κ)
    (children : α) : RenderResult κ α :=
  if !isOpen then ⟨[], none⟩
  else
    match doc.getElementById "root" with
    | none => ⟨["root"], none⟩
    | some modalRoot => ⟨["root"], some ⟨modalRoot, modalTree onClose children⟩⟩

/-- Callbacks invoked by one element's handler list. -/
def handlerInvokes {κ : Type} (h : List (ClickAction κ)) : List κ :=
  h.filterMap fun a =>
    match a with
    | ClickAction.invoke k => some k
    | ClickAction.stopProp => none

/-- Whether an element's handler list calls `stopPropagation`. -/
def handlerStops {κ : Type} (h : List (ClickAction κ)) : Bool :=
  h.any fun a =>
    match a with
    | ClickAction.invoke _ => false
    | ClickAction.stopProp => true

/-- Browser click dispatch along the bubbling chain, target first: each
element's handlers run in turn, and a `stopPropagation` call keeps the
event from reaching the remaining (ancestor) handlers. Returns the list of
callbacks invoked, in order. -/
def dispatchClick {κ : Type} : List (List (ClickAction κ)) → List κ
  | [] => []
  | h :: rest =>
    handlerInvokes h ++ (if handlerStops h then [] else dispatchClick rest)

mutual

/-- The bubbling chain for a click whose target is reached from this node
by the given child-index path: the handler lists from the target up to this
node, or `none` when the path does not exist in the tree. A content payload
carries no handlers of its own. -/
def handlerChain {κ α : Type} : VNode κ α → List Nat →
    Option (List (List (ClickAction κ)))
  | VNode.content _, [] => some [[]]
  | VNode.content _, _ :: _ => none
  | VNode.el _ _ h _, [] => some [h]
  | VNode.el _ _ h cs, i :: rest =>
    (handlerChainIn cs i rest).map (fun l => l ++ [h])

/-- Helper of `handlerChain`: descend into the i-th child. -/
def handlerChainIn {κ α : Type} : List (VNode κ α) → Nat → List Nat →
    Option (List (List (ClickAction κ)))
  | [], _, _ => none
  | c :: _, 0, rest => handlerChain c rest
  | _ :: cs, n + 1, rest => handlerChainIn cs n rest

end

mutual

/-- All opaque content payloads occurring in a tree, left to right. -/
def VNode.payloads {κ α : Type} : VNode κ α → List α
  | VNode.content a => [a]
  | VNode.el _ _ _ cs => payloadsList cs

/-- Helper of `VNode.payloads` for a list of children. -/
def payloadsList {κ α : Type} : List (VNode κ α) → List α
  | [] => []
  | v :: vs => VNode.payloads v ++ payloadsList vs

end

/-- The inline style value an element gives a property, if any. -/
def VNode.styleVal {κ α : Type} : VNode κ α → String → Option String
  | VNode.el _ s _ _, key => (s.find? (fun p => p.1 == key)).map Prod.snd
  | VNode.content _, _ => none

/-- The direct children of a node. -/
def VNode.childList {κ α : Type} : VNode κ α → List (VNode κ α)
  | VNode.el _ _ _ cs => cs
  | VNode.content _ => []

/-- The click handlers a shell registers, one per interactive control in
`App` (src/App.tsx): the Open Modal button, the `onClose` callback passed
to the modal, and the in-panel Close button. These are the only writers of
the visibility flag. -/
inductive AppAction where
  | openModalButton
  | modalOnClose
  | panelCloseButton
  deriving DecidableEq, Repr

/-- The initial value of the shell's visibility flag:
`useState<boolean>(false)`. -/
def appInitIsOpen : Bool := false

/-- Effect of each shell handler on the visibility flag: the trigger sets
it to `true` (`setIsOpen(true)`), both dismiss paths set it to `false`
(`setIsOpen(false)`), each unconditionally of the current value. -/
def appStep : Bool → AppAction → Bool
  | _, AppAction.openModalButton => true
  | _, AppAction.modalOnClose => false
  | _, AppAction.panelCloseButton => false

/-- A sample document that contains the anchor node. -/
def docWithRoot : Document := ⟨["root"]⟩

/-- A sample document with no elements at all. -/
def docEmpty : Document := ⟨[]⟩

/-- Inversion helper: whenever a render produces a portal, its tree is the
backdrop tree built from that render's props. -/
theorem Modal_output_some {κ α : Type} {doc : Document} {isOpen : Bool}
    {k : κ} {c : α} {p : Portal κ α}
    (hp : (Modal doc isOpen k c).output = some p) :
    p.tree = modalTree k c := by
  unfold Modal at hp
  cases isOpen with
  | false => simp at hp
  | true =>
    cases hge : doc.getElementById "root" with
    | none => rw [hge] at hp; simp at hp
    | some r =>
      rw [hge] at hp
      simp at hp
      rw [← hp]

/-- C1: for every value of `isOpen`, every dismiss callback and every
content payload, the overlay's output is a portal (visible output) exactly
when `isOpen` is true and the anchor node exists in the document; in every
other case the output is `null`. -/
theorem C1_visible_iff_open_and_anchored (κ α : Type) (doc : Document)
    (isOpen : Bool) (k : κ) (c : α) :
    (Modal doc isOpen k c).output.isSome =
      (isOpen && (doc.getElementById "root").isSome) := by
  unfold Modal
  cases isOpen with
  | false => rfl
  | true =>
    cases hge : doc.getElementById "root" with
    | none => simp
    | some r => simp

/-- C4: when the anchor node is absent from the document, the overlay
renders nothing for every value of `isOpen`; the component is a total
function, so no exception reaches the caller. -/
theorem C4_missing_anchor_renders_nothing (κ α : Type) (doc : Document)
    (isOpen : Bool) (k : κ) (c : α)
    (h : doc.getElementById "root" = none) :
    (Modal doc isOpen k c).output = none := by
  unfold Modal
  cases isOpen with
  | false => rfl
  | true => rw [h]; rfl

/-- Witness for C4 at a concrete input: the empty document has no `root`
element and the overlay output is `null` there. -/
theorem C4_witness :
    (Modal docEmpty true (0 : Nat) (0 : Nat)).output = none :=
  C4_missing_anchor_renders_nothing Nat Nat docEmpty true 0 0 rfl

/-- C5: the shell's visibility flag starts `false`, the trigger control
writes `true`, and both dismiss paths (the `onClose` callback given to the
overlay and the in-panel Close button) write `false`; `AppAction`
enumerates every handler of the shell, so no other operation writes it. -/
theorem C5_flag_writes :
    appInitIsOpen = false ∧
    (∀ s : Bool, appStep s AppAction.openModalButton = true) ∧
    (∀ s : Bool, appStep s AppAction.modalOnClose = false) ∧
    (∀ s : Bool, appStep s AppAction.panelCloseButton = false) := by
  refine ⟨rfl, ?_, ?_, ?_⟩ <;> intro s <;> rfl

/-- C9: when `isOpen` is false the component returns `null` before the
anchor lookup: the render performs no document query, and its whole result
is independent of the document. -/
theorem C9_closed_render_no_document_query (κ α : Type)
    (doc doc' : Document) (k : κ) (c : α) :
    (Modal doc false k c).queries = [] ∧
    (Modal doc false k c).output = none ∧
    Modal doc false k c = Modal doc' false k c :=
  ⟨rfl, rfl, rfl⟩

/-- C10: the trigger handler and each dismiss handler write a constant to
the visibility flag, so every shell action is idempotent on the flag. -/
theorem C10_handlers_idempotent (s : Bool) (a : AppAction) :
    appStep (appStep s a) a = appStep s a := by
  cases a <;> rfl

/-- C2: for every click whose target is the content panel (child 0 of the
backdrop) or anything inside it, dispatch invokes no callback at all: the
panel's `stopPropagation` handler keeps the event from ever reaching the
backdrop's `onClose` handler. -/
theorem C2_panel_click_never_dismisses (κ α : Type) (doc : Document)
    (k : κ) (c : α) (p : Portal κ α) (rest : List Nat)
    (ch : List (List (ClickAction κ)))
    (hp : (Modal doc true k c).output = some p)
    (hc : handlerChain p.tree (0 :: rest) = some ch) :
    dispatchClick ch = [] := by
  rw [Modal_output_some hp] at hc
  rcases rest with _ | ⟨i, rest2⟩
  · have he : handlerChain (modalTree k c) [0] =
        some [[ClickAction.stopProp], [ClickAction.invoke k]] := rfl
    rw [he] at hc
    rw [← Option.some.inj hc]
    rfl
  · rcases i with _ | n
    · rcases rest2 with _ | ⟨j, rest3⟩
      · have he : handlerChain (modalTree k c) [0, 0] =
            some [[], [ClickAction.stopProp], [ClickAction.invoke k]] := rfl
        rw [he] at hc
        rw [← Option.some.inj hc]
        rfl
      · have he : handlerChain (modalTree k c) (0 :: 0 :: j :: rest3) =
            none := rfl
        rw [he] at hc
        exact Option.noConfusion hc
    · have he : handlerChain (modalTree k c) (0 :: (n + 1) :: rest2) =
          none := rfl
      rw [he] at hc
      exact Option.noConfusion hc

/-- Witness for C2: a concrete click on the content panel of a concrete
render dispatches no callback. -/
theorem C2_witness :
    dispatchClick [[(ClickAction.stopProp : ClickAction Nat)],
      [ClickAction.invoke (7 : Nat)]] = [] :=
  C2_panel_click_never_dismisses Nat Nat docWithRoot 7 (0 : Nat)
    ⟨"root", modalTree 7 0⟩ []
    [[ClickAction.stopProp], [ClickAction.invoke 7]] rfl rfl

/-- C3: for every click whose target is the backdrop itself, dispatch
invokes exactly the zero-argument `onClose` callback, exactly once. -/
theorem C3_backdrop_click_dismisses_once (κ α : Type) (doc : Document)
    (k : κ) (c : α) (p : Portal κ α) (ch : List (List (ClickAction κ)))
    (hp : (Modal doc true k c).output = some p)
    (hc : handlerChain p.tree [] = some ch) :
    dispatchClick ch = [k] := by
  rw [Modal_output_some hp] at hc
  have he : handlerChain (modalTree k c) ([] : List Nat) =
      some [[ClickAction.invoke k]] := rfl
  rw [he] at hc
  rw [← Option.some.inj hc]
  rfl

/-- Witness for C3: a concrete click on the backdrop of a concrete render
invokes the callback exactly once. -/
theorem C3_witness :
    dispatchClick [[ClickAction.invoke (7 : Nat)]] = [7] :=
  C3_backdrop_click_dismisses_once Nat Nat docWithRoot 7 (0 : Nat)
    ⟨"root", modalTree 7 0⟩ [[ClickAction.invoke 7]] rfl rfl

/-- C6 counterexample: two renders with equal `isOpen`, equal dismiss
callback and equal content but documents differing in the anchor node
produce different output, so output is not a function of those three
inputs alone. -/
theorem C6_counterexample :
    (Modal docWithRoot true (0 : Nat) (0 : Nat)).output ≠
      (Modal docEmpty true (0 : Nat) (0 : Nat)).output := by
  intro h
  have h1 : (Modal docWithRoot true (0 : Nat) (0 : Nat)).output =
      some ⟨"root", modalTree 0 0⟩ := rfl
  have h2 : (Modal docEmpty true (0 : Nat) (0 : Nat)).output = none := rfl
  rw [h1, h2] at h
  exact Option.noConfusion h

/-- C6 amended: the overlay component retains no internal state; its output
is a pure function of its props and the current document, so two renders
with equal document, `isOpen`, `onClose` and content give equal output. -/
theorem C6_amended_pure_of_props_and_document (κ α : Type)
    (d₁ d₂ : Document) (o₁ o₂ : Bool) (k₁ k₂ : κ) (c₁ c₂ : α)
    (hd : d₁ = d₂) (ho : o₁ = o₂) (hk : k₁ = k₂) (hc : c₁ = c₂) :
    Modal d₁ o₁ k₁ c₁ = Modal d₂ o₂ k₂ c₂ := by
  rw [hd, ho, hk, hc]

/-- Witness for the amended C6 at concrete equal inputs. -/
theorem C6_witness :
    Modal docWithRoot true (3 : Nat) (4 : Nat) =
      Modal docWithRoot true (3 : Nat) (4 : Nat) :=
  C6_amended_pure_of_props_and_document Nat Nat docWithRoot docWithRoot
    true true 3 3 4 4 rfl rfl rfl rfl

/-- C7: when `isOpen` is true and the anchor lookup succeeds, the overlay
is a portal mounted under the anchor node (not at the caller's position),
whose tree is a fixed, full-viewport, semi-transparent, top-layer backdrop
with flexbox centering, containing the content panel as its only child. -/
theorem C7_backdrop_layout (κ α : Type) (doc : Document) (k : κ) (c : α)
    (r : String) (hr : doc.getElementById "root" = some r) :
    (Modal doc true k c).output = some ⟨r, modalTree k c⟩ ∧
    (modalTree k c).styleVal "position" = some "fixed" ∧
    (modalTree k c).styleVal "top" = some "0" ∧
    (modalTree k c).styleVal "left" = some "0" ∧
    (modalTree k c).styleVal "width" = some "100vw" ∧
    (modalTree k c).styleVal "height" = some "100vh" ∧
    (modalTree k c).styleVal "backgroundColor" = some "rgba(0,0,0,0.4)" ∧
    (modalTree k c).styleVal "zIndex" = some "1000" ∧
    (modalTree k c).styleVal "display" = some "flex" ∧
    (modalTree k c).styleVal "alignItems" = some "center" ∧
    (modalTree k c).styleVal "justifyContent" = some "center" ∧
    (modalTree k c).childList = [modalPanel c] := by
  refine ⟨?_, rfl, rfl, rfl, rfl, rfl, rfl, rfl, rfl, rfl, rfl, rfl⟩
  unfold Modal
  rw [hr]
  rfl

/-- Witness for C7 at a concrete document containing the anchor node. -/
theorem C7_witness :
    (Modal docWithRoot true (1 : Nat) (2 : Nat)).output =
      some ⟨"root", modalTree 1 2⟩ ∧
    (modalTree (1 : Nat) (2 : Nat)).styleVal "position" = some "fixed" ∧
    (modalTree (1 : Nat) (2 : Nat)).styleVal "top" = some "0" ∧
    (modalTree (1 : Nat) (2 : Nat)).styleVal "left" = some "0" ∧
    (modalTree (1 : Nat) (2 : Nat)).styleVal "width" = some "100vw" ∧
    (modalTree (1 : Nat) (2 : Nat)).styleVal "height" = some "100vh" ∧
    (modalTree (1 : Nat) (2 : Nat)).styleVal "backgroundColor" =
      some "rgba(0,0,0,0.4)" ∧
    (modalTree (1 : Nat) (2 : Nat)).styleVal "zIndex" = some "1000" ∧
    (modalTree (1 : Nat) (2 : Nat)).styleVal "display" = some "flex" ∧
    (modalTree (1 : Nat) (2 : Nat)).styleVal "alignItems" = some "center" ∧
    (modalTree (1 : Nat) (2 : Nat)).styleVal "justifyContent" =
      some "center" ∧
    (modalTree (1 : Nat) (2 : Nat)).childList = [modalPanel 2] :=
  C7_backdrop_layout Nat Nat docWithRoot 1 2 "root" rfl

/-- C8: whenever the overlay renders, the content payload appears in the
output exactly once and unmodified, placed inside the content panel, and
the component never inspects it (it is opaque, of arbitrary type `α`). -/
theorem C8_content_passed_through (κ α : Type) (doc : Document)
    (isOpen : Bool) (k : κ) (c : α) (p : Portal κ α)
    (hp : (Modal doc isOpen k c).output = some p) :
    VNode.payloads p.tree = [c] ∧
    (modalPanel c : VNode κ α).childList = [VNode.content c] := by
  refine ⟨?_, rfl⟩
  rw [Modal_output_some hp]
  rfl

/-- Witness for C8 at a concrete render. -/
theorem C8_witness :
    VNode.payloads ((⟨"root", modalTree 0 5⟩ : Portal Nat Nat).tree) =
      [5] ∧
    (modalPanel (5 : Nat) : VNode Nat Nat).childList =
      [VNode.content 5] :=
  C8_content_passed_through Nat Nat docWithRoot true 0 5
    ⟨"root", modalTree 0 5⟩ rfl

end ReactPortals
